import Mathlib

/-!
Verification of the boot-arbitration / image-table core of the
`android_bootable_userfastboot` bootloader (files `update_osip.c` and
`droidboot.c`), as a shallow embedding in Lean 4.

Conventions of the embedding:
* C machine integers become `Nat`/`Int`; C `int` division appears as
  `Int.tdiv` (truncation toward zero, the C semantics).
* Device I/O becomes explicit state passing over `DeviceState`; the
  success/failure of each external I/O step is an input (`IOEnv`), and the
  embedded function threads the state exactly as the C control flow does.
* Fallible C functions returning a negative status become functions
  returning an `Int` status (paired with the new state), mirroring the
  original return conventions (`-1` failure, `0`/`1` success).
* Declarations missing from the provided sources (the `update_osip.h`
  structure layout and the helpers `crack_stitched_image`/`write_OSIP`)
  are modelled from the specification and say so in their doc comments.
-/

/-! ### Constants from `update_osip.c` -/

def BACKUP_LOC : Nat := 0xE0

def OSIP_SIG : Nat := 0x24534f24

def OSII_TOTAL : Nat := 7

def DUMP_OSIP : Nat := 1

def NOT_DUMP : Nat := 0

def R_BCK : Nat := 1

def R_START : Nat := 0

def MMC_PAGES_PER_BLOCK : Int := 1

def KBYTES : Int := 1024

def STITCHED_IMAGE_PAGE_SIZE : Nat := 512

def STITCHED_IMAGE_BLOCK_SIZE : Nat := 512

/-! ### Data model -/

/-- Modelled from the spec: `struct OSII` (one image descriptor) is declared
in the missing header `update_osip.h`; its fields are those listed in the
spec's data model and referenced by name in `update_osip.c`
(`os_rev_major`, `os_rev_minor`, `ddr_load_address`, `entery_point` (sic),
`size_of_os_image`, `logical_start_block` and an attribute bitfield, here
`attrib` because `attribute` is a Lean keyword). -/
structure OSII where
  os_rev_major : Nat
  os_rev_minor : Nat
  logical_start_block : Nat
  ddr_load_address : Nat
  entery_point : Nat
  size_of_os_image : Nat
  attrib : Nat
deriving DecidableEq, Repr

def zeroOSII : OSII :=
  { os_rev_major := 0, os_rev_minor := 0, logical_start_block := 0
    ddr_load_address := 0, entery_point := 0, size_of_os_image := 0
    attrib := 0 }

/-- Modelled from the spec: `struct OSIP_header` is declared in the missing
header `update_osip.h`; per the spec it is a magic signature, a count of
populated image slots, and a fixed-capacity (7) array of `OSII` slots. -/
structure OSIP_header where
  sig : Nat
  num_images : Nat
  desc : List OSII
deriving DecidableEq, Repr

def zeroOSIP : OSIP_header :=
  { sig := 0, num_images := 0, desc := List.replicate OSII_TOTAL zeroOSII }

/-- The raw device, at the granularity the claims need: the decoded image
table stored at the primary location (offset 0), the decoded table at the
backup location `0xE0` (defined by the format but never written by this
code), and a log of payload writes `(byte offset, bytes)` appended in the
order the code issues them. -/
structure DeviceState where
  osip : OSIP_header
  backup_osip : OSIP_header
  blobWrites : List (Int × List Nat)
deriving DecidableEq, Repr

/-- A stitched update blob: the leading 512-byte block carries the incoming
descriptor, the rest is the payload. The C function receives `(void *data,
size_t size)`; here the blob is already structured, and the total byte
length `size` is recovered by `stitched_size`. -/
structure StitchedData where
  osii : OSII
  payload : List Nat
deriving DecidableEq, Repr

/-- Total length of the blob as handed to `write_stitch_image` (`size`). -/
def stitched_size (d : StitchedData) : Nat :=
  STITCHED_IMAGE_BLOCK_SIZE + d.payload.length

/-- Outcome of each external I/O step used by `write_stitch_image`, an
input to the embedding: the content of the erase-size attribute (`none` if
its open/read fails), and success flags for the OSIP read, the `write_OSIP`
persist, the payload-device open, and the payload write. -/
structure IOEnv where
  pageAttr : Option String
  readOk : Bool
  writeOSIPOk : Bool
  devOpenOk : Bool
  blobWriteOk : Bool
deriving DecidableEq, Repr

/-! ### `get_page_size` / `get_block_size` -/

/-- Model of `sscanf(buf, "%d", &v)` on the attribute buffer: skip leading
whitespace, an optional sign, then at least one decimal digit; `none` when
no integer can be converted (sscanf returns 0 matches). -/
def sscanf_d (s : String) : Option Int :=
  let cs := s.toList.dropWhile fun c => c = ' ' ∨ c = '\t' ∨ c = '\n' ∨ c = '\r'
  let signed : Bool × List Char :=
    match cs with
    | '-' :: t => (true, t)
    | '+' :: t => (false, t)
    | _ => (false, cs)
  let ds := signed.2.takeWhile Char.isDigit
  if ds.isEmpty then none
  else
    let n : Nat := ds.foldl (fun a c => a * 10 + (c.toNat - '0'.toNat)) 0
    some (if signed.1 then -(n : Int) else (n : Int))

/-- Function `get_page_size` from `update_osip.c`: read the erase-size sysfs
attribute, parse it with `sscanf "%d"`, and return the value divided by
1024 (C `int` division, truncation toward zero); `-1` on any failure. -/
def get_page_size (pageAttr : Option String) : Int :=
  match pageAttr with
  | none => -1
  | some buf =>
    match sscanf_d buf with
    | none => -1
    | some mmc_page_size => Int.tdiv mmc_page_size KBYTES

/-- Function `get_block_size` from `update_osip.c`: the page size times
`MMC_PAGES_PER_BLOCK` (= 1). -/
def get_block_size (pageAttr : Option String) : Int :=
  get_page_size pageAttr * MMC_PAGES_PER_BLOCK

/-! ### `read_OSIP_loc` -/

/-- Little-endian 32-bit value of the first four bytes of the table region,
the signature field as `read_OSIP_loc` compares it. -/
def sig_of_bytes (b0 b1 b2 b3 : Nat) : Nat :=
  b0 + 256 * (b1 + 256 * (b2 + 256 * b3))

/-- Result of `read_OSIP_loc`: the returned status, the out-parameter
`osip` (zeroed by `memset` first, overwritten on a successful read), whether
the "Invalid OSIP header detected!" diagnostic was printed, and whether the
header was dumped. -/
structure ReadOSIPResult where
  status : Int
  osip : OSIP_header
  invalid_diag : Bool
  dumped : Bool
deriving DecidableEq, Repr

/-- Function `read_OSIP_loc` from `update_osip.c`: zero the out-structure, open the
device and read the table at the requested location (`R_START` = primary
offset 0, otherwise `BACKUP_LOC`); on open/read failure return `-1`.
Otherwise print the invalid-header diagnostic when the signature does not
match `OSIP_SIG`, dump the header when asked to and the signature matches,
and return `1` — the signature check never affects the return status. -/
def read_OSIP_loc (readOk : Bool) (dev : DeviceState) (location : Nat)
    (dump : Nat) : ReadOSIPResult :=
  if !readOk then
    { status := -1, osip := zeroOSIP, invalid_diag := false, dumped := false }
  else
    let t := if location ≠ 0 then dev.backup_osip else dev.osip
    { status := 1
      osip := t
      invalid_diag := t.sig ≠ OSIP_SIG
      dumped := dump ≠ 0 ∧ t.sig = OSIP_SIG }

/-! ### Externals of `write_stitch_image` modelled from the spec -/

/-- Modelled from the spec: `crack_stitched_image` (missing from the
provided sources) parses the combined update blob into one image descriptor
plus its raw payload. On the already-structured `StitchedData` the
extraction itself always succeeds; the length validation is performed by
the caller (`update_osip.c` line 121), exactly as in the source. -/
def crack_stitched_image (d : StitchedData) : Option (OSII × List Nat) :=
  some (d.osii, d.payload)

/-- Modelled from the spec: `write_OSIP` (missing from the provided
sources) encodes the table and writes it to the primary location on the
raw device, returning a negative status on I/O failure, in which case the
device table is unchanged. -/
def write_OSIP (ok : Bool) (dev : DeviceState) (osip : OSIP_header) :
    Int × DeviceState :=
  if ok then (0, { dev with osip := osip }) else (-1, dev)

/-! ### `write_stitch_image` -/

/-- Function `write_stitch_image` from `update_osip.c`, step for step:
query block and page size; fail if the block size is negative; crack the
stitched blob; fail unless `size_of_os_image * 512 == size - 512`; re-read
the current table; set `num_images = 1`; overwrite the incoming
descriptor's `logical_start_block` with the value already recorded for
slot `update_number`; recompute `size_of_os_image` in device pages
(truncating division plus one); splice the descriptor into the slot; call
`write_OSIP` WITHOUT checking its result (as the C does); open the payload
device; seek to `logical_start_block * block_size` and write the payload
(a failed payload write is modelled as writing nothing). Returns the C
status and the final device state. -/
def write_stitch_image (env : IOEnv) (dev : DeviceState) (data : StitchedData)
    (update_number : Nat) : Int × DeviceState :=
  let block_size := get_block_size env.pageAttr
  let page_size := get_page_size env.pageAttr
  if block_size < 0 then (-1, dev)
  else
    match crack_stitched_image data with
    | none => (-1, dev)
    | some (osii0, blob) =>
      if osii0.size_of_os_image * STITCHED_IMAGE_PAGE_SIZE ≠
          stitched_size data - STITCHED_IMAGE_BLOCK_SIZE then (-1, dev)
      else
        let rr := read_OSIP_loc env.readOk dev R_START NOT_DUMP
        if rr.status < 0 then (-1, dev)
        else
          let osip1 := { rr.osip with num_images := 1 }
          let osii1 := { osii0 with
            logical_start_block :=
              (osip1.desc.getD update_number zeroOSII).logical_start_block }
          let osii2 := { osii1 with
            size_of_os_image :=
              osii1.size_of_os_image * STITCHED_IMAGE_PAGE_SIZE /
                page_size.toNat + 1 }
          let osip2 := { osip1 with desc := osip1.desc.set update_number osii2 }
          let dev1 := (write_OSIP env.writeOSIPOk dev osip2).2
          if !env.devOpenOk then (-1, dev1)
          else if !env.blobWriteOk then (-1, dev1)
          else
            (0, { dev1 with blobWrites := dev1.blobWrites ++
              [((osii2.logical_start_block : Int) * block_size, blob)] })

/-! ### `droidboot.c`: autoboot countdown, cancellation, input watcher -/

/-- Shared state of the autoboot flag (`autoboot_enabled`) together with the
log messages emitted when it is mutated. -/
structure BootState where
  autoboot_enabled : Bool
  log : List String
deriving DecidableEq, Repr

/-- Function `disable_autoboot` from `droidboot.c`: clear the flag and log
"Autoboot disabled." only when the flag is currently set; otherwise do
nothing at all. -/
def disable_autoboot (s : BootState) : BootState :=
  if s.autoboot_enabled then
    { autoboot_enabled := false, log := s.log ++ ["Autoboot disabled."] }
  else s

/-- The countdown loop of `autoboot_thread`: with `s` iterations left,
each iteration prints, sleeps one second, then reads `autoboot_enabled`
(observation `obs i`, the i-th read of the flag by this thread); a cleared
flag returns without booting. When the loop exhausts its iterations
`start_default_kernel` is invoked — the result `true` means exactly that
the default-boot operation was invoked. -/
def autoboot_loop (obs : Nat → Bool) : Nat → Nat → Bool
  | _, 0 => true
  | i, s + 1 => if obs i then autoboot_loop obs (i + 1) s else false

/-- Function `autoboot_thread` from `droidboot.c`: read `autoboot_enabled` once on
entry (`obs 0`); if cleared return immediately, otherwise run the countdown
of `sleep_time` one-second ticks, re-reading the flag after each sleep
(`obs 1`, `obs 2`, ...). Returns `true` iff `start_default_kernel` is
invoked. -/
def autoboot_thread (obs : Nat → Bool) (sleep_time : Nat) : Bool :=
  if obs 0 then autoboot_loop obs 1 sleep_time else false

/-! Input events (`linux/input.h` ABI constants used by the source). -/

def EV_KEY : Nat := 0x01

def EV_REL : Nat := 0x02

def EV_ABS : Nat := 0x03

def KEY_DOT : Nat := 52

structure InputEvent where
  type : Nat
  code : Nat
  value : Nat
deriving DecidableEq, Repr

/-- What the body of the `input_listener_thread` event loop does with one
decoded event. -/
inductive WatchAction where
  | ignore
  | cancelAndExit
deriving DecidableEq, Repr

/-- The event classification `switch` of `input_listener_thread`
(`droidboot.c` lines 171-192): a key event with code `KEY_DOT` is ignored
(known spurious key source); any other key event cancels autoboot and
exits the loop; `EV_ABS`/`EV_REL` (mouse or touchscreen) cancel and exit;
every other event type is ignored. -/
def classify_event (e : InputEvent) : WatchAction :=
  if e.type = EV_KEY then
    if e.code = KEY_DOT then .ignore else .cancelAndExit
  else if e.type = EV_ABS ∨ e.type = EV_REL then .cancelAndExit
  else .ignore

/-- The watcher loop of `input_listener_thread` over the sequence of events
it reads: an ignored event leaves the loop running on the remaining
events; a qualifying event calls `disable_autoboot` and jumps out of the
loop, never processing further events. Returns the final shared state and
whether the loop terminated by triggering cancellation. -/
def input_watch_loop (s : BootState) : List InputEvent → BootState × Bool
  | [] => (s, false)
  | e :: rest =>
    match classify_event e with
    | .ignore => input_watch_loop s rest
    | .cancelAndExit => (disable_autoboot s, true)

/-! Input-device enumeration (`input_listener_thread` setup phase and
`open_event_node`). -/

/-- Outcome of examining one directory entry under `/dev/input/`: its
`stat` fails, or it is not a character device, or it is a character device
whose `open` succeeds or fails. -/
inductive EntryKind where
  | statFail
  | notChar
  | charDev (openOk : Bool)
deriving DecidableEq, Repr

structure DirEntry where
  d_name : String
  kind : EntryKind
deriving DecidableEq, Repr

/-- Accumulated effect of the enumeration: which device nodes were opened
(modelling `rfds`/`max_fd`) and the log lines emitted. -/
structure EnumState where
  opened : List String
  logs : List String
deriving DecidableEq, Repr

/-- Function `open_event_node` from `droidboot.c`: on open failure log
"Unable to open ..." and return without registering anything; on success
log "Opened ..." and register the descriptor. -/
def open_event_node (openOk : Bool) (devname : String) (st : EnumState) :
    EnumState :=
  if !openOk then
    { st with logs := st.logs ++ ["Unable to open " ++ devname] }
  else
    { opened := st.opened ++ [devname]
      logs := st.logs ++ ["Opened " ++ devname] }

/-- The enumeration loop of `input_listener_thread` (`droidboot.c` lines
121-138) over the directory entries it reads: skip `.` and `..`; `die()`
— modelled as `none`, the whole process terminates — when `stat` fails on
an entry; skip entries that are not character devices; hand character
devices to `open_event_node` (whose failure merely logs and skips). -/
def input_enumerate (st : EnumState) : List DirEntry → Option EnumState
  | [] => some st
  | e :: rest =>
    if e.d_name = "." ∨ e.d_name = ".." then input_enumerate st rest
    else
      match e.kind with
      | .statFail => none
      | .notChar => input_enumerate st rest
      | .charDev openOk => input_enumerate (open_event_node openOk e.d_name st) rest

/-! ### Helper lemmas -/

/-- Closed-form characterization of `write_stitch_image`: the three checked
preconditions, then the spliced table, the unchecked `write_OSIP`, and the
payload write. -/
theorem wsi_eq (env : IOEnv) (dev : DeviceState) (data : StitchedData) (k : Nat) :
    write_stitch_image env dev data k =
      if get_block_size env.pageAttr < 0 then (-1, dev)
      else if data.osii.size_of_os_image * STITCHED_IMAGE_PAGE_SIZE ≠
          data.payload.length then (-1, dev)
      else if env.readOk = false then (-1, dev)
      else
        let osii2 : OSII := { data.osii with
          logical_start_block := (dev.osip.desc.getD k zeroOSII).logical_start_block
          size_of_os_image := data.osii.size_of_os_image * STITCHED_IMAGE_PAGE_SIZE /
            (get_page_size env.pageAttr).toNat + 1 }
        let osip2 : OSIP_header :=
          { sig := dev.osip.sig
            num_images := 1
            desc := dev.osip.desc.set k osii2 }
        let dev1 : DeviceState := if env.writeOSIPOk then { dev with osip := osip2 } else dev
        if env.devOpenOk = false then (-1, dev1)
        else if env.blobWriteOk = false then (-1, dev1)
        else (0, { dev1 with blobWrites := dev1.blobWrites ++
          [((osii2.logical_start_block : Int) * get_block_size env.pageAttr, data.payload)] }) := by
  unfold write_stitch_image crack_stitched_image read_OSIP_loc
  have hss : stitched_size data - STITCHED_IMAGE_BLOCK_SIZE = data.payload.length := by
    simp [stitched_size]
  rw [hss]
  cases hr : env.readOk <;> cases ho : env.devOpenOk <;>
    cases hw : env.blobWriteOk <;> cases hwr : env.writeOSIPOk <;>
    simp [R_START, NOT_DUMP, write_OSIP]

/-- The checked failure conditions: a zero (success) return implies every
checked step succeeded. (`write_OSIP` is absent here: its result is not
checked by the code.) -/
theorem wsi_status_zero (env : IOEnv) (dev : DeviceState) (data : StitchedData)
    (k : Nat) (hs : (write_stitch_image env dev data k).1 = 0) :
    ¬get_block_size env.pageAttr < 0 ∧
    data.osii.size_of_os_image * STITCHED_IMAGE_PAGE_SIZE = data.payload.length ∧
    env.readOk = true ∧ env.devOpenOk = true ∧ env.blobWriteOk = true := by
  rw [wsi_eq] at hs
  split_ifs at hs with h1 h2 h3 h4 h5 <;> simp_all

/-- The success path of `write_stitch_image` in closed form. -/
theorem wsi_success (env : IOEnv) (dev : DeviceState) (data : StitchedData) (k : Nat)
    (h1 : ¬get_block_size env.pageAttr < 0)
    (h2 : data.osii.size_of_os_image * STITCHED_IMAGE_PAGE_SIZE = data.payload.length)
    (h3 : env.readOk = true) (h4 : env.devOpenOk = true) (h5 : env.blobWriteOk = true) :
    write_stitch_image env dev data k =
      (0,
       { osip :=
           if env.writeOSIPOk then
             { sig := dev.osip.sig
               num_images := 1
               desc := dev.osip.desc.set k { data.osii with
                 logical_start_block := (dev.osip.desc.getD k zeroOSII).logical_start_block
                 size_of_os_image := data.osii.size_of_os_image * STITCHED_IMAGE_PAGE_SIZE /
                   (get_page_size env.pageAttr).toNat + 1 } }
           else dev.osip
         backup_osip := dev.backup_osip
         blobWrites := dev.blobWrites ++
           [(((dev.osip.desc.getD k zeroOSII).logical_start_block : Int) *
               get_block_size env.pageAttr, data.payload)] }) := by
  rw [wsi_eq]
  simp [h1, h2, h3, h4, h5]
  split_ifs <;> simp_all

/-! ### Sample concrete inputs used by witnesses and counterexamples -/

/-- An I/O environment in which every external step succeeds and the
erase-size attribute reads "2048\n". -/
def goodEnv : IOEnv :=
  { pageAttr := some "2048\n", readOk := true, writeOSIPOk := true
    devOpenOk := true, blobWriteOk := true }

/-- A blank device: zeroed tables at both locations, no payload writes. -/
def zeroDevice : DeviceState :=
  { osip := zeroOSIP, backup_osip := zeroOSIP, blobWrites := [] }

/-- A descriptor that only records a logical start block. -/
def lsbOSII (l : Nat) : OSII := { zeroOSII with logical_start_block := l }

/-- A device whose seven slots record distinct logical start blocks. -/
def sampleDevice : DeviceState :=
  { osip := { sig := OSIP_SIG, num_images := 2
              desc := [lsbOSII 10, lsbOSII 20, lsbOSII 30, lsbOSII 40,
                lsbOSII 50, lsbOSII 60, lsbOSII 70] }
    backup_osip := zeroOSIP
    blobWrites := [] }

/-- A well-formed stitched blob declaring 0 payload pages whose incoming
descriptor carries logical start block 777. -/
def sampleData : StitchedData :=
  { osii := { zeroOSII with logical_start_block := 777 }, payload := [] }

/-! ### The claims -/

/-- C1: a successful `write_stitch_image` into slot `k` leaves the
descriptors of all slots other than `k` byte-for-byte unchanged; the
descriptor stored in slot `k` keeps the `logical_start_block` previously
recorded on the device for slot `k`; and the resulting table is independent
of the `logical_start_block` value carried by the incoming stitched
descriptor. -/
theorem C1_write_image_frame (env : IOEnv) (dev : DeviceState) (data : StitchedData)
    (k : Nat) (hk : k < OSII_TOTAL)
    (hs : (write_stitch_image env dev data k).1 = 0) :
    (∀ j, j < OSII_TOTAL → j ≠ k →
      (write_stitch_image env dev data k).2.osip.desc.getD j zeroOSII =
        dev.osip.desc.getD j zeroOSII)
    ∧ ((write_stitch_image env dev data k).2.osip.desc.getD k zeroOSII).logical_start_block =
        (dev.osip.desc.getD k zeroOSII).logical_start_block
    ∧ ∀ v, (write_stitch_image env dev
        { data with osii := { data.osii with logical_start_block := v } } k).2.osip =
        (write_stitch_image env dev data k).2.osip := by
  rw [wsi_eq] at hs
  refine ⟨?_, ?_, ?_⟩
  · intro j hj hjk
    rw [wsi_eq]
    split_ifs at hs ⊢ <;> simp_all
    rw [List.getElem?_set_ne (Ne.symm hjk)]
  · rw [wsi_eq]
    split_ifs at hs ⊢ <;> simp_all
    rcases Nat.lt_or_ge k dev.osip.desc.length with hlt | hge
    · simp [List.getElem?_set_eq_of_lt _ hlt]
    · simp [List.getElem?_set_self', List.getElem?_eq_none hge]
  · intro v
    rw [wsi_eq, wsi_eq]

/-- C1 witness: writing sample data into slot 2 of the sample device. -/
theorem C1_write_image_frame_applies :
    2 < OSII_TOTAL
    ∧ (write_stitch_image goodEnv sampleDevice sampleData 2).1 = 0
    ∧ ((write_stitch_image goodEnv sampleDevice sampleData 2).2.osip.desc.getD 2
          zeroOSII).logical_start_block =
        (sampleDevice.osip.desc.getD 2 zeroOSII).logical_start_block :=
  ⟨by decide, by decide,
    (C1_write_image_frame goodEnv sampleDevice sampleData 2 (by decide) (by decide)).2.1⟩

/-- C2: a blob whose total length is not `declared_pages * 512 + 512` is
rejected with the failure status and the device — table and payload
regions alike — is byte-for-byte unchanged. -/
theorem C2_reject_length_mismatch (env : IOEnv) (dev : DeviceState)
    (data : StitchedData) (k : Nat)
    (h : stitched_size data ≠
      data.osii.size_of_os_image * STITCHED_IMAGE_PAGE_SIZE + STITCHED_IMAGE_BLOCK_SIZE) :
    write_stitch_image env dev data k = (-1, dev) := by
  have hne : data.osii.size_of_os_image * STITCHED_IMAGE_PAGE_SIZE ≠
      data.payload.length := by
    simp only [stitched_size] at h
    omega
  rw [wsi_eq]
  simp [hne]

/-- C2 witness: a blob declaring 1 page but carrying no payload bytes is
rejected and the sample device is unchanged. -/
theorem C2_reject_length_mismatch_applies :
    stitched_size { osii := { zeroOSII with size_of_os_image := 1 }, payload := [] } ≠
      1 * STITCHED_IMAGE_PAGE_SIZE + STITCHED_IMAGE_BLOCK_SIZE
    ∧ write_stitch_image goodEnv sampleDevice
        { osii := { zeroOSII with size_of_os_image := 1 }, payload := [] } 0 =
      (-1, sampleDevice) :=
  ⟨by decide,
    C2_reject_length_mismatch goodEnv sampleDevice
      { osii := { zeroOSII with size_of_os_image := 1 }, payload := [] } 0 (by decide)⟩

/-- C3 (counterexample): the claim that a failing table persist prevents
the payload write is false. With every step succeeding except `write_OSIP`
(whose result `update_osip.c` line 143 never checks), `write_stitch_image`
still performs the payload write and returns success 0, while the on-device
table was never updated (its image count is still 0, not 1). -/
theorem C3_counterexample :
    (write_stitch_image { goodEnv with writeOSIPOk := false } zeroDevice
      { osii := zeroOSII, payload := [] } 0).1 = 0
    ∧ (write_stitch_image { goodEnv with writeOSIPOk := false } zeroDevice
        { osii := zeroOSII, payload := [] } 0).2.blobWrites = [((0 : Int), [])]
    ∧ (write_stitch_image { goodEnv with writeOSIPOk := false } zeroDevice
        { osii := zeroOSII, payload := [] } 0).2.osip.num_images = 0
    ∧ (write_OSIP false zeroDevice zeroOSIP).1 = -1 := by decide

/-- C3 (amended): a failure at any step whose result the code checks —
geometry query, blob parse, size validation, table read, payload-device
open, payload write — aborts the operation with no further steps attempted;
but the result of the `write_OSIP` table persist is not checked, so the
returned status and the payload write are identical whether `write_OSIP`
succeeds or fails. -/
theorem C3_unchecked_write_OSIP (env : IOEnv) (dev : DeviceState)
    (data : StitchedData) (k : Nat) :
    (get_block_size env.pageAttr < 0 → write_stitch_image env dev data k = (-1, dev))
    ∧ (env.readOk = false → write_stitch_image env dev data k = (-1, dev))
    ∧ (env.devOpenOk = false → (write_stitch_image env dev data k).1 = -1
        ∧ (write_stitch_image env dev data k).2.blobWrites = dev.blobWrites)
    ∧ (stitched_size data ≠ data.osii.size_of_os_image * STITCHED_IMAGE_PAGE_SIZE +
          STITCHED_IMAGE_BLOCK_SIZE → write_stitch_image env dev data k = (-1, dev))
    ∧ (env.blobWriteOk = false → (write_stitch_image env dev data k).1 = -1
        ∧ (write_stitch_image env dev data k).2.blobWrites = dev.blobWrites)
    ∧ (write_stitch_image { env with writeOSIPOk := false } dev data k).1 =
        (write_stitch_image { env with writeOSIPOk := true } dev data k).1
    ∧ (write_stitch_image { env with writeOSIPOk := false } dev data k).2.blobWrites =
        (write_stitch_image { env with writeOSIPOk := true } dev data k).2.blobWrites := by
  refine ⟨?_, ?_, ?_, ?_, ?_, ?_, ?_⟩ <;> rw [wsi_eq]
  · intro h; simp [h]
  · intro h; simp [h]
  · intro h; simp [h]
    split_ifs <;> simp
  · intro h
    have hne : data.osii.size_of_os_image * STITCHED_IMAGE_PAGE_SIZE ≠
        data.payload.length := by
      simp only [stitched_size] at h
      omega
    simp [hne]
  · intro h; simp [h]
    split_ifs <;> simp
  · rw [wsi_eq]; simp
    split_ifs <;> simp
  · rw [wsi_eq]; simp
    split_ifs <;> simp

/-- C3 amended witness: with the payload-device open failing on the sample
inputs, the call fails and no payload write happens. -/
theorem C3_unchecked_write_OSIP_applies :
    ({ goodEnv with devOpenOk := false } : IOEnv).devOpenOk = false
    ∧ (write_stitch_image { goodEnv with devOpenOk := false }
        sampleDevice sampleData 2).1 = -1
    ∧ (write_stitch_image { goodEnv with devOpenOk := false }
        sampleDevice sampleData 2).2.blobWrites = sampleDevice.blobWrites
    ∧ ({ goodEnv with blobWriteOk := false } : IOEnv).blobWriteOk = false
    ∧ (write_stitch_image { goodEnv with blobWriteOk := false }
        sampleDevice sampleData 2).1 = -1
    ∧ (write_stitch_image { goodEnv with blobWriteOk := false }
        sampleDevice sampleData 2).2.blobWrites = sampleDevice.blobWrites
    ∧ stitched_size { osii := { zeroOSII with size_of_os_image := 3 }, payload := [] } ≠
        3 * STITCHED_IMAGE_PAGE_SIZE + STITCHED_IMAGE_BLOCK_SIZE
    ∧ write_stitch_image goodEnv sampleDevice
        { osii := { zeroOSII with size_of_os_image := 3 }, payload := [] } 1 =
      (-1, sampleDevice) :=
  ⟨rfl,
    ((C3_unchecked_write_OSIP { goodEnv with devOpenOk := false }
      sampleDevice sampleData 2).2.2.1 rfl).1,
    ((C3_unchecked_write_OSIP { goodEnv with devOpenOk := false }
      sampleDevice sampleData 2).2.2.1 rfl).2,
    rfl,
    ((C3_unchecked_write_OSIP { goodEnv with blobWriteOk := false }
      sampleDevice sampleData 2).2.2.2.2.1 rfl).1,
    ((C3_unchecked_write_OSIP { goodEnv with blobWriteOk := false }
      sampleDevice sampleData 2).2.2.2.2.1 rfl).2,
    by decide,
    (C3_unchecked_write_OSIP goodEnv sampleDevice
      { osii := { zeroOSII with size_of_os_image := 3 }, payload := [] } 1).2.2.2.1
      (by decide)⟩

/-- C4: for every accepted stitched image declaring `p` pages and a
positive queried page size `s`, the `size` field stored (when the table
persist succeeds) equals `(p * 512) / s + 1` with truncating division, so
it strictly exceeds `(p * 512) / s` even on exact division. Concretely, an
erase-size attribute of "2048\n" yields page size 2 and block size 2, and
an image declaring 100 pages with total length `100*512 + 512` is accepted
and stored with size field `100*512/2 + 1`. -/
theorem C4_size_recompute :
    (∀ (env : IOEnv) (dev : DeviceState) (data : StitchedData) (k : Nat),
      0 < get_page_size env.pageAttr → k < dev.osip.desc.length →
      (write_stitch_image env dev data k).1 = 0 → env.writeOSIPOk = true →
      ((write_stitch_image env dev data k).2.osip.desc.getD k zeroOSII).size_of_os_image =
          data.osii.size_of_os_image * STITCHED_IMAGE_PAGE_SIZE /
            (get_page_size env.pageAttr).toNat + 1
        ∧ data.osii.size_of_os_image * STITCHED_IMAGE_PAGE_SIZE /
            (get_page_size env.pageAttr).toNat <
          ((write_stitch_image env dev data k).2.osip.desc.getD k zeroOSII).size_of_os_image)
    ∧ get_page_size (some "2048\n") = 2
    ∧ get_block_size (some "2048\n") = 2
    ∧ (∀ payload : List Nat, payload.length = 100 * 512 →
      stitched_size { osii := { zeroOSII with size_of_os_image := 100 }, payload := payload } =
        100 * 512 + 512
      ∧ (write_stitch_image goodEnv zeroDevice
          { osii := { zeroOSII with size_of_os_image := 100 }, payload := payload } 0).1 = 0
      ∧ ((write_stitch_image goodEnv zeroDevice
          { osii := { zeroOSII with size_of_os_image := 100 }, payload := payload }
          0).2.osip.desc.getD 0 zeroOSII).size_of_os_image = 100 * 512 / 2 + 1) := by
  refine ⟨?_, by decide, by decide, ?_⟩
  · intro env dev data k hps hk hs hw
    obtain ⟨h1, h2, h3, h4, h5⟩ := wsi_status_zero env dev data k hs
    rw [wsi_success env dev data k h1 h2 h3 h4 h5]
    simp [hw, List.getD_eq_getElem?_getD, List.getElem?_set_eq_of_lt _ hk]
  · intro payload hlen
    have h2 : ({ osii := { zeroOSII with size_of_os_image := 100 }, payload := payload } :
        StitchedData).osii.size_of_os_image * STITCHED_IMAGE_PAGE_SIZE =
        ({ osii := { zeroOSII with size_of_os_image := 100 }, payload := payload } :
        StitchedData).payload.length := by
      simp only [hlen, STITCHED_IMAGE_PAGE_SIZE]
    refine ⟨?_, ?_⟩
    · simp only [stitched_size, hlen, STITCHED_IMAGE_BLOCK_SIZE]
    rw [wsi_success goodEnv zeroDevice _ 0 (by decide) h2 rfl rfl rfl]
    exact ⟨rfl, rfl⟩

/-- C4 witness: a 0-page image on the sample device at slot 0 is accepted
and stored with size field `0 * 512 / 2 + 1 = 1`. -/
theorem C4_size_recompute_applies :
    0 < get_page_size goodEnv.pageAttr
    ∧ 0 < sampleDevice.osip.desc.length
    ∧ (write_stitch_image goodEnv sampleDevice
        { osii := zeroOSII, payload := [] } 0).1 = 0
    ∧ ((write_stitch_image goodEnv sampleDevice
        { osii := zeroOSII, payload := [] } 0).2.osip.desc.getD 0
        zeroOSII).size_of_os_image =
      ({ osii := zeroOSII, payload := [] } :
        StitchedData).osii.size_of_os_image * STITCHED_IMAGE_PAGE_SIZE /
        (get_page_size goodEnv.pageAttr).toNat + 1 :=
  ⟨by decide, by decide, by decide,
    (C4_size_recompute.1 goodEnv sampleDevice
      { osii := zeroOSII, payload := [] } 0
      (by decide) (by decide) (by decide) rfl).1⟩

/-- C5: reading the table at the primary location from a device whose
first four bytes do not form the "$OS$" signature still returns success
(status 1) with the structurally decoded table, only emitting the
invalid-header diagnostic. -/
theorem C5_read_primary_permissive (b0 b1 b2 b3 : Nat) (dev : DeviceState)
    (dump : Nat) (hsig : sig_of_bytes b0 b1 b2 b3 ≠ OSIP_SIG)
    (hdev : dev.osip.sig = sig_of_bytes b0 b1 b2 b3) :
    (read_OSIP_loc true dev R_START dump).status = 1
    ∧ (read_OSIP_loc true dev R_START dump).osip = dev.osip
    ∧ (read_OSIP_loc true dev R_START dump).invalid_diag = true := by
  simp [read_OSIP_loc, R_START, hdev, hsig]

/-- C5 witness: a blank (all-zero-bytes) device. -/
theorem C5_read_primary_permissive_applies :
    sig_of_bytes 0 0 0 0 ≠ OSIP_SIG
    ∧ zeroDevice.osip.sig = sig_of_bytes 0 0 0 0
    ∧ (read_OSIP_loc true zeroDevice R_START DUMP_OSIP).status = 1
    ∧ (read_OSIP_loc true zeroDevice R_START DUMP_OSIP).invalid_diag = true :=
  ⟨by decide, by decide,
    (C5_read_primary_permissive 0 0 0 0 zeroDevice DUMP_OSIP (by decide) (by decide)).1,
    (C5_read_primary_permissive 0 0 0 0 zeroDevice DUMP_OSIP (by decide) (by decide)).2.2⟩

/-- C6: a successful `write_stitch_image` whose table persist went through
leaves the populated-image count at exactly 1, whatever count the device
held before. -/
theorem C6_resets_num_images (env : IOEnv) (dev : DeviceState) (data : StitchedData)
    (k : Nat) (hs : (write_stitch_image env dev data k).1 = 0)
    (hw : env.writeOSIPOk = true) :
    (write_stitch_image env dev data k).2.osip.num_images = 1 := by
  obtain ⟨h1, h2, h3, h4, h5⟩ := wsi_status_zero env dev data k hs
  rw [wsi_success env dev data k h1 h2 h3 h4 h5]
  simp [hw]

/-- C6 witness: the sample device records count 2 before the write and
count 1 after it. -/
theorem C6_resets_num_images_applies :
    sampleDevice.osip.num_images = 2
    ∧ (write_stitch_image goodEnv sampleDevice sampleData 2).1 = 0
    ∧ (write_stitch_image goodEnv sampleDevice sampleData 2).2.osip.num_images = 1 :=
  ⟨by decide, by decide,
    C6_resets_num_images goodEnv sampleDevice sampleData 2 (by decide) rfl⟩

/-- The countdown loop never boots when some in-range flag read is false. -/
theorem autoboot_loop_cancelled (obs : Nat → Bool) :
    ∀ (s i j : Nat), i ≤ j → j < i + s → obs j = false →
    autoboot_loop obs i s = false := by
  intro s
  induction s with
  | zero => intro i j h1 h2 _; omega
  | succ s ih =>
    intro i j h1 h2 hobs
    rw [autoboot_loop]
    cases hoi : obs i
    · simp
    · simp only [if_pos]
      have hij : i ≠ j := fun he => by rw [he, hobs] at hoi; cases hoi
      exact ih (i + 1) j (by omega) (by omega) hobs

/-- C7: in a countdown of `n > 0` seconds, if any of the thread's flag
reads up to the `n`-th (the reads made before the remaining-seconds counter
reaches zero) observes the cancellation, `autoboot_thread` terminates
without invoking `start_default_kernel`. -/
theorem C7_cancel_prevents_default_boot (obs : Nat → Bool) (n k : Nat)
    (hn : 0 < n) (hk : k ≤ n) (hc : obs k = false) :
    autoboot_thread obs n = false := by
  rw [autoboot_thread]
  cases h0 : obs 0
  · simp
  · simp only [if_pos]
    have hk1 : 1 ≤ k := by
      have hk0 : k ≠ 0 := by
        intro he
        rw [he] at hc
        simp [hc] at h0
      exact Nat.one_le_iff_ne_zero.mpr hk0
    exact autoboot_loop_cancelled obs n 1 k hk1 (by omega) hc

/-- C7 witness: a 5-second countdown cancelled at the read after the third
sleep never boots. -/
theorem C7_cancel_prevents_default_boot_applies :
    0 < 5 ∧ 3 ≤ 5 ∧ (fun m => decide (m < 3)) 3 = false
    ∧ autoboot_thread (fun m => decide (m < 3)) 5 = false :=
  ⟨by decide, by decide, by decide,
    C7_cancel_prevents_default_boot (fun m => decide (m < 3)) 5 3
      (by decide) (by decide) (by decide)⟩

/-- Once the flag is cleared, the watcher loop can never change the shared
state again (its only mutation is `disable_autoboot`, a no-op when already
cancelled). -/
theorem input_watch_loop_fixed (s : BootState) (hs : s.autoboot_enabled = false) :
    ∀ evs : List InputEvent, (input_watch_loop s evs).1 = s := by
  intro evs
  induction evs with
  | nil => rfl
  | cons e rest ih =>
    rw [input_watch_loop]
    cases classify_event e
    · exact ih
    · simp [disable_autoboot, hs]

/-- C8: `disable_autoboot` is idempotent, is a strict no-op on a cancelled
state, performs the Armed-to-Cancelled transition together with its log
message exactly once, and no operation ever returns the flag from
Cancelled to Armed — `disable_autoboot` always leaves the flag cleared and
the watcher loop keeps a cancelled state exactly as it is. -/
theorem C8_disable_autoboot_idempotent (s : BootState) :
    disable_autoboot (disable_autoboot s) = disable_autoboot s
    ∧ (s.autoboot_enabled = false → disable_autoboot s = s)
    ∧ (s.autoboot_enabled = true →
        (disable_autoboot s).log = s.log ++ ["Autoboot disabled."])
    ∧ (disable_autoboot s).autoboot_enabled = false
    ∧ (s.autoboot_enabled = false →
        ∀ evs : List InputEvent, (input_watch_loop s evs).1 = s) := by
  refine ⟨?_, ?_, ?_, ?_, ?_⟩
  · cases hs : s.autoboot_enabled <;> simp [disable_autoboot, hs]
  · intro hs; simp [disable_autoboot, hs]
  · intro hs; simp [disable_autoboot, hs]
  · cases hs : s.autoboot_enabled <;> simp [disable_autoboot, hs]
  · intro hs
    exact input_watch_loop_fixed s hs

/-- C8 witness: an armed state with an empty log. -/
theorem C8_disable_autoboot_idempotent_applies :
    ({ autoboot_enabled := true, log := [] } : BootState).autoboot_enabled = true
    ∧ (disable_autoboot { autoboot_enabled := true, log := [] }).log =
        [] ++ ["Autoboot disabled."]
    ∧ (disable_autoboot { autoboot_enabled := true, log := [] }).autoboot_enabled = false :=
  ⟨rfl,
    (C8_disable_autoboot_idempotent { autoboot_enabled := true, log := [] }).2.2.1 rfl,
    (C8_disable_autoboot_idempotent { autoboot_enabled := true, log := [] }).2.2.2.1⟩

/-- C9: classification of one event by the watcher — the reserved no-op key
(`KEY_DOT`) is ignored and the loop continues; any other key event and any
relative/absolute pointer event triggers cancellation and terminates the
loop without reading further events; every other event class is ignored
and the loop continues. -/
theorem C9_event_classification (e : InputEvent) (s : BootState)
    (rest : List InputEvent) :
    (e.type = EV_KEY → e.code = KEY_DOT →
      classify_event e = WatchAction.ignore
      ∧ input_watch_loop s (e :: rest) = input_watch_loop s rest)
    ∧ (e.type = EV_KEY → e.code ≠ KEY_DOT →
      classify_event e = WatchAction.cancelAndExit
      ∧ input_watch_loop s (e :: rest) = (disable_autoboot s, true))
    ∧ (e.type = EV_REL ∨ e.type = EV_ABS →
      classify_event e = WatchAction.cancelAndExit
      ∧ input_watch_loop s (e :: rest) = (disable_autoboot s, true))
    ∧ (e.type ≠ EV_KEY → e.type ≠ EV_REL → e.type ≠ EV_ABS →
      classify_event e = WatchAction.ignore
      ∧ input_watch_loop s (e :: rest) = input_watch_loop s rest) := by
  refine ⟨?_, ?_, ?_, ?_⟩
  · intro ht hc
    have h : classify_event e = WatchAction.ignore := by
      simp [classify_event, ht, hc]
    exact ⟨h, by rw [input_watch_loop, h]⟩
  · intro ht hc
    have h : classify_event e = WatchAction.cancelAndExit := by
      simp [classify_event, ht, hc]
    exact ⟨h, by rw [input_watch_loop, h]⟩
  · intro ht
    have hne : e.type ≠ EV_KEY := by
      rcases ht with h | h <;> rw [h] <;> decide
    have h : classify_event e = WatchAction.cancelAndExit := by
      rcases ht with h' | h' <;> simp [classify_event, h', EV_KEY, EV_REL, EV_ABS]
    exact ⟨h, by rw [input_watch_loop, h]⟩
  · intro h1 h2 h3
    have h : classify_event e = WatchAction.ignore := by
      simp [classify_event, h1, h2, h3]
    exact ⟨h, by rw [input_watch_loop, h]⟩

/-- C9 witness: the no-op key is ignored, another key cancels, a relative
pointer event cancels, and a miscellaneous event class is ignored. -/
theorem C9_event_classification_applies :
    (classify_event { type := EV_KEY, code := KEY_DOT, value := 1 } = WatchAction.ignore
      ∧ input_watch_loop { autoboot_enabled := true, log := [] }
          [{ type := EV_KEY, code := KEY_DOT, value := 1 }] =
        input_watch_loop { autoboot_enabled := true, log := [] } [])
    ∧ (classify_event { type := EV_KEY, code := 28, value := 1 } =
        WatchAction.cancelAndExit
      ∧ input_watch_loop { autoboot_enabled := true, log := [] }
          [{ type := EV_KEY, code := 28, value := 1 }] =
        (disable_autoboot { autoboot_enabled := true, log := [] }, true))
    ∧ (classify_event { type := EV_REL, code := 0, value := 5 } =
        WatchAction.cancelAndExit)
    ∧ (classify_event { type := 4, code := 4, value := 0 } = WatchAction.ignore) :=
  ⟨(C9_event_classification { type := EV_KEY, code := KEY_DOT, value := 1 }
      { autoboot_enabled := true, log := [] } [] ).1 rfl rfl,
   (C9_event_classification { type := EV_KEY, code := 28, value := 1 }
      { autoboot_enabled := true, log := [] } [] ).2.1 rfl (by decide),
   ((C9_event_classification { type := EV_REL, code := 0, value := 5 }
      { autoboot_enabled := true, log := [] } [] ).2.2.1 (Or.inl rfl)).1,
   ((C9_event_classification { type := 4, code := 4, value := 0 }
      { autoboot_enabled := true, log := [] } [] ).2.2.2 (by decide) (by decide)
      (by decide)).1⟩

/-- C10: during input-device enumeration, a failed `stat` on a (non-dot)
directory entry terminates the whole process (`die()`, modelled as `none`),
whereas a failed `open` of a character-device node is merely logged and
that device skipped, the enumeration continuing over the remaining entries
with the opened set unchanged. -/
theorem C10_enumeration_severities (st : EnumState) (name : String)
    (rest : List DirEntry) (h1 : name ≠ ".") (h2 : name ≠ "..") :
    input_enumerate st ({ d_name := name, kind := EntryKind.statFail } :: rest) = none
    ∧ input_enumerate st ({ d_name := name, kind := EntryKind.charDev false } :: rest) =
        input_enumerate
          { st with logs := st.logs ++ ["Unable to open " ++ name] } rest
    ∧ (open_event_node false name st).opened = st.opened := by
  refine ⟨?_, ?_, ?_⟩
  · rw [input_enumerate]
    simp [h1, h2]
  · rw [input_enumerate]
    simp [h1, h2, open_event_node]
  · simp [open_event_node]

/-- C10 witness: entry "event0". -/
theorem C10_enumeration_severities_applies :
    input_enumerate { opened := [], logs := [] }
        [{ d_name := "event0", kind := EntryKind.statFail }] = none
    ∧ input_enumerate { opened := [], logs := [] }
        [{ d_name := "event0", kind := EntryKind.charDev false }] =
      input_enumerate { opened := [], logs := ["Unable to open " ++ "event0"] } [] :=
  ⟨(C10_enumeration_severities { opened := [], logs := [] } "event0" []
      (by decide) (by decide)).1,
   (C10_enumeration_severities { opened := [], logs := [] } "event0" []
      (by decide) (by decide)).2.1⟩
